import Mathlib

/-!
Shallow embedding of the two Go plugin variants in `main.go` of the
`plugin` repository.  The file holds two near-duplicate packages separated
by a document marker: the first defines `SimpleTestPlugin`, the second
`TestClusterPlugin`.  Both implement the `KubestellarPlugin` interface
(`Initialize`, `GetMetadata`, `GetHandlers`, `Health`, `Cleanup`) over a
single mutable `initialized : bool` guarded by a mutex.

Embedding conventions:
* Go's `error` return is `Option String` (`none` = `nil`, `some msg` =
  `fmt.Errorf(msg)`).
* Methods that may write the receiver return the result paired with the
  post-state; the mutex is elided (the embedding is sequential).
* `log.Println`/`log.Printf` lines are side effects on the process log only
  and are dropped.
* A decoded JSON body (`map[string]interface{}` filled by
  `c.ShouldBindJSON`) is a `List (String × JsonValue)` association list;
  the bind outcome is `Except String (…)` with the error message of the
  failed bind.  `gin.Context` is narrowed to what the handlers read: the
  bind outcome and the formatted `time.Now()` values.
* `c.JSON(code, obj)` becomes an `HttpResponse` with the numeric status
  and the top-level object as an association list.
-/

/-- The dynamic values a decoded JSON body can hold (Go `interface{}` after
`encoding/json` unmarshalling).  Numbers are kept as `Int`: every numeric
literal in this code is a small integer count. -/
inductive JsonValue where
  | null : JsonValue
  | bool : Bool → JsonValue
  | num : Int → JsonValue
  | str : String → JsonValue
  | arr : List JsonValue → JsonValue
  | obj : List (String × JsonValue) → JsonValue

/-- Go map indexing `request[key]`: the `(value, exists)` pair, as an
`Option`.  Duplicate keys cannot occur in a Go map; on an association list
the first binding wins. -/
def lookupField : List (String × JsonValue) → String → Option JsonValue
  | [], _ => none
  | (k, v) :: rest, key => if k == key then some v else lookupField rest key

/-- The Go comparison `clusterName == ""` where `clusterName` is an
`interface{}`: true exactly when the dynamic type is `string` and the value
is the empty string. -/
def JsonValue.isEmptyGoString : JsonValue → Bool
  | .str s => s == ""
  | _ => false

mutual

/-- `fmt.Sprintf` verb `%s` applied to the `interface{}` bound in the
request map.  A `string` prints as itself; `fmt` renders a slice or map by
recursing on the elements, and falls back to the `%!s(type=value)` error
notation on the scalar types that do not support `%s`.  (For maps `fmt`
sorts the keys; the embedding keeps list order — no theorem below inspects
a message built from a non-string value.) -/
def goSprintS : JsonValue → String
  | .null => "%!s(<nil>)"
  | .bool b => "%!s(bool=" ++ (if b then "true" else "false") ++ ")"
  | .num n => "%!s(float64=" ++ toString n ++ ")"
  | .str s => s
  | .arr xs => "[" ++ String.intercalate " " (goSprintList xs) ++ "]"
  | .obj fs => "map[" ++ String.intercalate " " (goSprintFields fs) ++ "]"

def goSprintList : List JsonValue → List String
  | [] => []
  | x :: xs => goSprintS x :: goSprintList xs

def goSprintFields : List (String × JsonValue) → List String
  | [] => []
  | (k, v) :: fs => (k ++ ":" ++ goSprintS v) :: goSprintFields fs

end

/-- The slice of `gin.Context` the handlers read: the outcome of
`c.ShouldBindJSON(&request)` (`.error msg` when the bind fails — invalid
JSON or a body that is not a JSON object — carrying `err.Error()`), and the
three formatted timestamps the handlers interpolate
(`time.Now()`, `time.Now().Add(-5m)`, `time.Now().Add(-10m)`, each under
`Format(time.RFC3339)`). -/
structure GinContext where
  body : Except String (List (String × JsonValue))
  now : String
  nowMinus5m : String
  nowMinus10m : String

/-- The observable outcome of `c.JSON(code, obj)`: HTTP status code and the
top-level JSON object. -/
structure HttpResponse where
  status : Nat
  body : List (String × JsonValue)

/-- `true` when the cluster entry is an object whose `"status"` field is the
string `s` (used to recount the mock per-cluster statuses). -/
def clusterHasStatus (s : String) : JsonValue → Bool
  | .obj fields =>
      match lookupField fields "status" with
      | some (.str t) => t == s
      | _ => false
  | _ => false

/-- The number of clusters in the list whose `"status"` field equals `s`. -/
def countWithStatus (clusters : List JsonValue) (s : String) : Nat :=
  (clusters.filter (clusterHasStatus s)).length

namespace SimplePlugin

/-- First variant's `PluginMetadata` (yaml tags only, no `Compatibility`
field). -/
structure EndpointConfig where
  Path : String
  Method : String
  Handler : String
deriving DecidableEq

structure PluginMetadata where
  ID : String
  Name : String
  Version : String
  Description : String
  Author : String
  Endpoints : List EndpointConfig
  Dependencies : List String
  Permissions : List String
deriving DecidableEq

/-- `SimpleTestPlugin`: the `initialized` flag (the `sync.RWMutex` is
elided). -/
structure SimpleTestPlugin where
  initialized : Bool
deriving DecidableEq

/-- `func (p *SimpleTestPlugin) Initialize(config map[string]interface{}) error`:
error if already initialized, else set the flag.  `config` is never read. -/
def SimpleTestPlugin.Initialize (p : SimpleTestPlugin)
    (config : Option (List (String × JsonValue))) :
    Option String × SimpleTestPlugin :=
  if p.initialized then
    (some "plugin already initialized", p)
  else
    (none, { p with initialized := true })

/-- `func (p *SimpleTestPlugin) GetMetadata() PluginMetadata`: a literal
record; the method body performs no assignment, so the post-state is the
receiver unchanged. -/
def SimpleTestPlugin.GetMetadata (p : SimpleTestPlugin) :
    PluginMetadata × SimpleTestPlugin :=
  ({ ID := "simple-test-plugin"
     Name := "Simple Test Plugin"
     Version := "1.0.0"
     Description := "A simple test plugin for GitHub installation testing"
     Author := "Your Name"
     Endpoints := [
       { Path := "/health", Method := "GET", Handler := "HealthHandler" },
       { Path := "/info", Method := "GET", Handler := "InfoHandler" }]
     Dependencies := []
     Permissions := [] }, p)

/-- `encoding/json` marshalling of `EndpointConfig` (no json tags in this
variant, so Go uses the exported field names as keys). -/
def EndpointConfig.toJson (e : EndpointConfig) : JsonValue :=
  .obj [("Path", .str e.Path), ("Method", .str e.Method),
        ("Handler", .str e.Handler)]

/-- `encoding/json` marshalling of the first variant's `PluginMetadata`. -/
def PluginMetadata.toJson (m : PluginMetadata) : JsonValue :=
  .obj [("ID", .str m.ID), ("Name", .str m.Name),
        ("Version", .str m.Version), ("Description", .str m.Description),
        ("Author", .str m.Author),
        ("Endpoints", .arr (m.Endpoints.map EndpointConfig.toJson)),
        ("Dependencies", .arr (m.Dependencies.map JsonValue.str)),
        ("Permissions", .arr (m.Permissions.map JsonValue.str))]

/-- `func (p *SimpleTestPlugin) HealthHandler(c *gin.Context)`. -/
def SimpleTestPlugin.HealthHandler (p : SimpleTestPlugin) (c : GinContext) :
    HttpResponse :=
  { status := 200
    body := [("status", .str "healthy"),
             ("plugin", .str "simple-test-plugin"),
             ("timestamp", .str c.now),
             ("message", .str "Plugin is running correctly")] }

/-- `func (p *SimpleTestPlugin) InfoHandler(c *gin.Context)`. -/
def SimpleTestPlugin.InfoHandler (p : SimpleTestPlugin) (c : GinContext) :
    HttpResponse :=
  { status := 200
    body := [("plugin", PluginMetadata.toJson (p.GetMetadata).1),
             ("initialized", .bool p.initialized),
             ("timestamp", .str c.now),
             ("endpoints", .arr [.str "/health", .str "/info"])] }

/-- `func (p *SimpleTestPlugin) GetHandlers() map[string]gin.HandlerFunc`. -/
def SimpleTestPlugin.GetHandlers (p : SimpleTestPlugin) :
    List (String × (GinContext → HttpResponse)) :=
  [("HealthHandler", p.HealthHandler),
   ("InfoHandler", p.InfoHandler)]

/-- `func (p *SimpleTestPlugin) Health() error`: error iff not
initialized. -/
def SimpleTestPlugin.Health (p : SimpleTestPlugin) : Option String :=
  if !p.initialized then some "plugin not initialized" else none

/-- `func (p *SimpleTestPlugin) Cleanup() error`: clear the flag
unconditionally, return `nil`. -/
def SimpleTestPlugin.Cleanup (p : SimpleTestPlugin) :
    Option String × SimpleTestPlugin :=
  (none, { p with initialized := false })

/-- `func NewPlugin() interface{}` of the first variant: a fresh
zero-valued instance (`initialized` is Go's zero `false`). -/
def NewPlugin : SimpleTestPlugin :=
  { initialized := false }

end SimplePlugin

namespace ClusterPlugin

/-- Second variant's `EndpointConfig` (yaml and json tags). -/
structure EndpointConfig where
  path : String
  method : String
  handler : String
deriving DecidableEq

/-- Second variant's `PluginMetadata`: adds the `Compatibility` map
(modelled as an association list, in literal order). -/
structure PluginMetadata where
  id : String
  name : String
  version : String
  description : String
  author : String
  endpoints : List EndpointConfig
  dependencies : List String
  permissions : List String
  compatibility : List (String × String)
deriving DecidableEq

/-- `TestClusterPlugin`: the `initialized` flag (the `sync.RWMutex` is
elided). -/
structure TestClusterPlugin where
  initialized : Bool
deriving DecidableEq

/-- `func (p *TestClusterPlugin) Initialize(config map[string]interface{}) error`. -/
def TestClusterPlugin.Initialize (p : TestClusterPlugin)
    (config : Option (List (String × JsonValue))) :
    Option String × TestClusterPlugin :=
  if p.initialized then
    (some "plugin already initialized", p)
  else
    (none, { p with initialized := true })

/-- `func (p *TestClusterPlugin) GetMetadata() PluginMetadata`: a literal
record; no assignment to the receiver, so the post-state is unchanged. -/
def TestClusterPlugin.GetMetadata (p : TestClusterPlugin) :
    PluginMetadata × TestClusterPlugin :=
  ({ id := "kubestellar-cluster-plugin"
     name := "KubeStellar Cluster Management"
     version := "1.0.0"
     description := "Plugin for cluster onboarding and detachment operations with real functionality"
     author := "CNCF LFX Mentee"
     endpoints := [
       { path := "/onboard", method := "POST", handler := "OnboardClusterHandler" },
       { path := "/detach", method := "POST", handler := "DetachClusterHandler" },
       { path := "/status", method := "GET", handler := "GetClusterStatusHandler" }]
     dependencies := ["kubectl", "clusteradm"]
     permissions := ["cluster.read", "cluster.write"]
     compatibility := [("go", ">=1.21"), ("kubestellar", ">=0.21.0")] }, p)

/-- `func (p *TestClusterPlugin) Health() error`: error iff not
initialized (under `RLock` in the source). -/
def TestClusterPlugin.Health (p : TestClusterPlugin) : Option String :=
  if !p.initialized then some "plugin not initialized" else none

/-- `func (p *TestClusterPlugin) Cleanup() error`: clear the flag
unconditionally, return `nil`. -/
def TestClusterPlugin.Cleanup (p : TestClusterPlugin) :
    Option String × TestClusterPlugin :=
  (none, { p with initialized := false })

/-- `func (p *TestClusterPlugin) GetClusterStatusHandler(c *gin.Context)`:
returns the hardcoded mock clusters, the hardcoded summary counts, and
`200`. -/
def TestClusterPlugin.GetClusterStatusHandler (p : TestClusterPlugin)
    (c : GinContext) : HttpResponse :=
  let clusters : List JsonValue := [
    .obj [("clusterName", .str "test-cluster-1"),
          ("status", .str "failed"),
          ("message", .str "niii bdlunga"),
          ("lastUpdated", .str c.now)],
    .obj [("clusterName", .str "gya"),
          ("status", .str "failed"),
          ("message", .str "Cluster onboarding completed successfully"),
          ("lastUpdated", .str c.nowMinus5m)],
    .obj [("clusterName", .str "prod-cluster-1"),
          ("status", .str "failed"),
          ("message", .str "Connection timeout during onboarding"),
          ("lastUpdated", .str c.nowMinus10m)]]
  let summary : List (String × JsonValue) := [
    ("total", .num 3), ("ready", .num 3), ("pending", .num 0),
    ("failed", .num 0), ("detaching", .num 0)]
  { status := 200
    body := [("clusters", .arr clusters),
             ("summary", .obj summary),
             ("timestamp", .str c.now),
             ("plugin", .str "GitHub Test Plugin v2")] }

/-- `func (p *TestClusterPlugin) OnboardClusterHandler(c *gin.Context)`:
`400` on bind failure; `400 "clusterName is required"` when the field is
absent or the empty string; otherwise `200` with the echoed name, status
`"pending"` and a timestamp. -/
def TestClusterPlugin.OnboardClusterHandler (p : TestClusterPlugin)
    (c : GinContext) : HttpResponse :=
  match c.body with
  | .error errMsg =>
      { status := 400
        body := [("error", .str "Invalid request format"),
                 ("details", .str errMsg)] }
  | .ok request =>
      match lookupField request "clusterName" with
      | none =>
          { status := 400
            body := [("error", .str "clusterName is required")] }
      | some clusterName =>
          if clusterName.isEmptyGoString then
            { status := 400
              body := [("error", .str "clusterName is required")] }
          else
            { status := 200
              body := [("message", .str ("Cluster '" ++ goSprintS clusterName
                         ++ "' onboarding started successfully")),
                       ("clusterName", clusterName),
                       ("status", .str "pending"),
                       ("timestamp", .str c.now),
                       ("plugin", .str "GitHub Test Plugin")] }

/-- `func (p *TestClusterPlugin) DetachClusterHandler(c *gin.Context)`:
same validation as onboarding; on success status `"detaching"`. -/
def TestClusterPlugin.DetachClusterHandler (p : TestClusterPlugin)
    (c : GinContext) : HttpResponse :=
  match c.body with
  | .error errMsg =>
      { status := 400
        body := [("error", .str "Invalid request format"),
                 ("details", .str errMsg)] }
  | .ok request =>
      match lookupField request "clusterName" with
      | none =>
          { status := 400
            body := [("error", .str "clusterName is required")] }
      | some clusterName =>
          if clusterName.isEmptyGoString then
            { status := 400
              body := [("error", .str "clusterName is required")] }
          else
            { status := 200
              body := [("message", .str ("Cluster '" ++ goSprintS clusterName
                         ++ "' detachment started successfully")),
                       ("clusterName", clusterName),
                       ("status", .str "detaching"),
                       ("timestamp", .str c.now),
                       ("plugin", .str "GitHub Test Plugin")] }

/-- `func (p *TestClusterPlugin) GetHandlers() map[string]gin.HandlerFunc`. -/
def TestClusterPlugin.GetHandlers (p : TestClusterPlugin) :
    List (String × (GinContext → HttpResponse)) :=
  [("GetClusterStatusHandler", p.GetClusterStatusHandler),
   ("OnboardClusterHandler", p.OnboardClusterHandler),
   ("DetachClusterHandler", p.DetachClusterHandler)]

/-- `func NewPlugin() interface{}` of the second variant: construct a
zero-valued instance, call `Initialize(nil)` on it immediately, and return
`nil` (here `none`) if that fails, else the (now initialized) instance. -/
def NewPlugin : Option TestClusterPlugin :=
  let plugin : TestClusterPlugin := { initialized := false }
  match plugin.Initialize none with
  | (some _, _) => none
  | (none, plugin) => some plugin

end ClusterPlugin

/-- C1: on either plugin variant, once `Initialize` has succeeded (and no
`Cleanup` intervened), a second `Initialize` returns the
"plugin already initialized" error and leaves the flag `true`. -/
theorem initialize_twice_fails
    (p : SimplePlugin.SimpleTestPlugin) (q : ClusterPlugin.TestClusterPlugin)
    (cfg cfg' dfg dfg' : Option (List (String × JsonValue)))
    (hp : (p.Initialize cfg).1 = none)
    (hq : (q.Initialize dfg).1 = none) :
    ((p.Initialize cfg).2.Initialize cfg').1 = some "plugin already initialized" ∧
    ((p.Initialize cfg).2.Initialize cfg').2.initialized = true ∧
    ((q.Initialize dfg).2.Initialize dfg').1 = some "plugin already initialized" ∧
    ((q.Initialize dfg).2.Initialize dfg').2.initialized = true := by
  rcases p with ⟨pi⟩
  rcases q with ⟨qi⟩
  cases pi <;> cases qi <;>
    simp_all [SimplePlugin.SimpleTestPlugin.Initialize,
              ClusterPlugin.TestClusterPlugin.Initialize]

/-- Witness for C1 at the freshly constructed instances and `nil` configs. -/
theorem initialize_twice_fails_witness :
    ((SimplePlugin.SimpleTestPlugin.Initialize ⟨false⟩ none).2.Initialize none).1
        = some "plugin already initialized" ∧
    ((SimplePlugin.SimpleTestPlugin.Initialize ⟨false⟩ none).2.Initialize none).2.initialized = true ∧
    ((ClusterPlugin.TestClusterPlugin.Initialize ⟨false⟩ none).2.Initialize none).1
        = some "plugin already initialized" ∧
    ((ClusterPlugin.TestClusterPlugin.Initialize ⟨false⟩ none).2.Initialize none).2.initialized = true :=
  initialize_twice_fails ⟨false⟩ ⟨false⟩ none none none none rfl rfl

/-- C2: from the freshly constructed state (`initialized = false`), `Health`
fails with "plugin not initialized"; after a successful `Initialize` it
returns no error; after a subsequent `Cleanup` it fails again — on both
variants, for any config. -/
theorem health_lifecycle
    (cfg dfg : Option (List (String × JsonValue))) :
    SimplePlugin.SimpleTestPlugin.Health ⟨false⟩ = some "plugin not initialized" ∧
    (SimplePlugin.SimpleTestPlugin.Initialize ⟨false⟩ cfg).1 = none ∧
    SimplePlugin.SimpleTestPlugin.Health
      (SimplePlugin.SimpleTestPlugin.Initialize ⟨false⟩ cfg).2 = none ∧
    SimplePlugin.SimpleTestPlugin.Health
      (SimplePlugin.SimpleTestPlugin.Cleanup
        (SimplePlugin.SimpleTestPlugin.Initialize ⟨false⟩ cfg).2).2
      = some "plugin not initialized" ∧
    ClusterPlugin.TestClusterPlugin.Health ⟨false⟩ = some "plugin not initialized" ∧
    (ClusterPlugin.TestClusterPlugin.Initialize ⟨false⟩ dfg).1 = none ∧
    ClusterPlugin.TestClusterPlugin.Health
      (ClusterPlugin.TestClusterPlugin.Initialize ⟨false⟩ dfg).2 = none ∧
    ClusterPlugin.TestClusterPlugin.Health
      (ClusterPlugin.TestClusterPlugin.Cleanup
        (ClusterPlugin.TestClusterPlugin.Initialize ⟨false⟩ dfg).2).2
      = some "plugin not initialized" :=
  ⟨rfl, rfl, rfl, rfl, rfl, rfl, rfl, rfl⟩

/-- C3: a request whose bound JSON body is
`{"clusterName": "test-cluster-1"}` makes the onboarding handler answer
`200` with `clusterName = "test-cluster-1"` and `status = "pending"`. -/
theorem onboard_success_pending
    (p : ClusterPlugin.TestClusterPlugin) (n n5 n10 : String) :
    (p.OnboardClusterHandler
        ⟨.ok [("clusterName", .str "test-cluster-1")], n, n5, n10⟩).status = 200 ∧
    lookupField (p.OnboardClusterHandler
        ⟨.ok [("clusterName", .str "test-cluster-1")], n, n5, n10⟩).body "clusterName"
      = some (.str "test-cluster-1") ∧
    lookupField (p.OnboardClusterHandler
        ⟨.ok [("clusterName", .str "test-cluster-1")], n, n5, n10⟩).body "status"
      = some (.str "pending") :=
  ⟨rfl, rfl, rfl⟩

/-- C4: when the JSON bind fails, or the bound body has no `clusterName`
key, onboarding and detachment both answer `400` with an `error` field; on
a body whose `clusterName` is present and not the empty Go string, both
answer `200` with `status` and `timestamp` fields. -/
theorem handlers_validate_input
    (p : ClusterPlugin.TestClusterPlugin)
    (e : String) (req reqd : List (String × JsonValue)) (v : JsonValue)
    (n n5 n10 : String)
    (hmiss : lookupField req "clusterName" = none)
    (hv : lookupField reqd "clusterName" = some v)
    (hne : v.isEmptyGoString = false) :
    (p.OnboardClusterHandler ⟨.error e, n, n5, n10⟩).status = 400 ∧
    (lookupField (p.OnboardClusterHandler ⟨.error e, n, n5, n10⟩).body "error").isSome = true ∧
    (p.DetachClusterHandler ⟨.error e, n, n5, n10⟩).status = 400 ∧
    (lookupField (p.DetachClusterHandler ⟨.error e, n, n5, n10⟩).body "error").isSome = true ∧
    (p.OnboardClusterHandler ⟨.ok req, n, n5, n10⟩).status = 400 ∧
    (lookupField (p.OnboardClusterHandler ⟨.ok req, n, n5, n10⟩).body "error").isSome = true ∧
    (p.DetachClusterHandler ⟨.ok req, n, n5, n10⟩).status = 400 ∧
    (lookupField (p.DetachClusterHandler ⟨.ok req, n, n5, n10⟩).body "error").isSome = true ∧
    (p.OnboardClusterHandler ⟨.ok reqd, n, n5, n10⟩).status = 200 ∧
    (lookupField (p.OnboardClusterHandler ⟨.ok reqd, n, n5, n10⟩).body "status").isSome = true ∧
    (lookupField (p.OnboardClusterHandler ⟨.ok reqd, n, n5, n10⟩).body "timestamp").isSome = true ∧
    (p.DetachClusterHandler ⟨.ok reqd, n, n5, n10⟩).status = 200 ∧
    (lookupField (p.DetachClusterHandler ⟨.ok reqd, n, n5, n10⟩).body "status").isSome = true ∧
    (lookupField (p.DetachClusterHandler ⟨.ok reqd, n, n5, n10⟩).body "timestamp").isSome = true := by
  unfold ClusterPlugin.TestClusterPlugin.OnboardClusterHandler
    ClusterPlugin.TestClusterPlugin.DetachClusterHandler
  simp [hmiss, hv, hne, lookupField]

/-- Witness for C4: bind failure "EOF", the empty body `{}`, and the body
`{"clusterName": "test-cluster-1"}`. -/
theorem handlers_validate_input_witness :
    (ClusterPlugin.TestClusterPlugin.OnboardClusterHandler ⟨false⟩
        ⟨.error "EOF", "t0", "t1", "t2"⟩).status = 400 ∧
    (lookupField (ClusterPlugin.TestClusterPlugin.OnboardClusterHandler ⟨false⟩
        ⟨.error "EOF", "t0", "t1", "t2"⟩).body "error").isSome = true ∧
    (ClusterPlugin.TestClusterPlugin.DetachClusterHandler ⟨false⟩
        ⟨.error "EOF", "t0", "t1", "t2"⟩).status = 400 ∧
    (lookupField (ClusterPlugin.TestClusterPlugin.DetachClusterHandler ⟨false⟩
        ⟨.error "EOF", "t0", "t1", "t2"⟩).body "error").isSome = true ∧
    (ClusterPlugin.TestClusterPlugin.OnboardClusterHandler ⟨false⟩
        ⟨.ok [], "t0", "t1", "t2"⟩).status = 400 ∧
    (lookupField (ClusterPlugin.TestClusterPlugin.OnboardClusterHandler ⟨false⟩
        ⟨.ok [], "t0", "t1", "t2"⟩).body "error").isSome = true ∧
    (ClusterPlugin.TestClusterPlugin.DetachClusterHandler ⟨false⟩
        ⟨.ok [], "t0", "t1", "t2"⟩).status = 400 ∧
    (lookupField (ClusterPlugin.TestClusterPlugin.DetachClusterHandler ⟨false⟩
        ⟨.ok [], "t0", "t1", "t2"⟩).body "error").isSome = true ∧
    (ClusterPlugin.TestClusterPlugin.OnboardClusterHandler ⟨false⟩
        ⟨.ok [("clusterName", .str "test-cluster-1")], "t0", "t1", "t2"⟩).status = 200 ∧
    (lookupField (ClusterPlugin.TestClusterPlugin.OnboardClusterHandler ⟨false⟩
        ⟨.ok [("clusterName", .str "test-cluster-1")], "t0", "t1", "t2"⟩).body "status").isSome = true ∧
    (lookupField (ClusterPlugin.TestClusterPlugin.OnboardClusterHandler ⟨false⟩
        ⟨.ok [("clusterName", .str "test-cluster-1")], "t0", "t1", "t2"⟩).body "timestamp").isSome = true ∧
    (ClusterPlugin.TestClusterPlugin.DetachClusterHandler ⟨false⟩
        ⟨.ok [("clusterName", .str "test-cluster-1")], "t0", "t1", "t2"⟩).status = 200 ∧
    (lookupField (ClusterPlugin.TestClusterPlugin.DetachClusterHandler ⟨false⟩
        ⟨.ok [("clusterName", .str "test-cluster-1")], "t0", "t1", "t2"⟩).body "status").isSome = true ∧
    (lookupField (ClusterPlugin.TestClusterPlugin.DetachClusterHandler ⟨false⟩
        ⟨.ok [("clusterName", .str "test-cluster-1")], "t0", "t1", "t2"⟩).body "timestamp").isSome = true :=
  handlers_validate_input ⟨false⟩ "EOF" [] [("clusterName", .str "test-cluster-1")]
    (.str "test-cluster-1") "t0" "t1" "t2" rfl rfl rfl

/-- C5: `Cleanup` is unconditional and idempotent on both variants: from
any state it returns no error and leaves `initialized = false`, twice in a
row. -/
theorem cleanup_idempotent
    (p : SimplePlugin.SimpleTestPlugin) (q : ClusterPlugin.TestClusterPlugin) :
    (p.Cleanup).1 = none ∧ (p.Cleanup).2.initialized = false ∧
    ((p.Cleanup).2.Cleanup).1 = none ∧ ((p.Cleanup).2.Cleanup).2.initialized = false ∧
    (q.Cleanup).1 = none ∧ (q.Cleanup).2.initialized = false ∧
    ((q.Cleanup).2.Cleanup).1 = none ∧ ((q.Cleanup).2.Cleanup).2.initialized = false :=
  ⟨rfl, rfl, rfl, rfl, rfl, rfl, rfl, rfl⟩

/-- C6: `GetMetadata` is deterministic and side-effect free on both
variants: any two states yield the same record, and the post-state equals
the receiver. -/
theorem getMetadata_deterministic
    (p q : SimplePlugin.SimpleTestPlugin) (r s : ClusterPlugin.TestClusterPlugin) :
    (p.GetMetadata).1 = (q.GetMetadata).1 ∧ (p.GetMetadata).2 = p ∧
    (r.GetMetadata).1 = (s.GetMetadata).1 ∧ (r.GetMetadata).2 = r :=
  ⟨rfl, rfl, rfl, rfl⟩

/-- C7: the hardcoded status response is self-contradictory: every cluster
in the `clusters` list has status `"failed"` (so the recount gives
failed = 3, ready = 0), yet the `summary` reports `failed = 0` and
`ready = 3`. -/
theorem status_summary_contradicts_clusters
    (p : ClusterPlugin.TestClusterPlugin) (c : GinContext) :
    ∃ clusters summary,
      lookupField (p.GetClusterStatusHandler c).body "clusters" = some (.arr clusters) ∧
      lookupField (p.GetClusterStatusHandler c).body "summary" = some (.obj summary) ∧
      clusters.all (clusterHasStatus "failed") = true ∧
      countWithStatus clusters "failed" = 3 ∧
      countWithStatus clusters "ready" = 0 ∧
      lookupField summary "failed" = some (.num 0) ∧
      lookupField summary "ready" = some (.num 3) ∧
      countWithStatus clusters "failed" ≠ 0 ∧
      countWithStatus clusters "ready" ≠ 3 := by
  refine ⟨_, _, rfl, rfl, rfl, rfl, rfl, rfl, rfl, ?_, ?_⟩
  · exact (by decide : (3 : Nat) ≠ 0)
  · exact (by decide : (0 : Nat) ≠ 3)

/-- C8: the only error values any lifecycle method can produce are the
already-initialized error from `Initialize` and the not-initialized error
from `Health`; `Cleanup` always returns `nil`, and `GetMetadata` and
`GetHandlers` (whose Go signatures have no error result) return the fixed
record and the fixed handler table in every state. -/
theorem error_kinds_exhaustive
    (p : SimplePlugin.SimpleTestPlugin) (q : ClusterPlugin.TestClusterPlugin)
    (cfg dfg : Option (List (String × JsonValue))) :
    ((p.Initialize cfg).1 = none ∨ (p.Initialize cfg).1 = some "plugin already initialized") ∧
    (p.Health = none ∨ p.Health = some "plugin not initialized") ∧
    (p.Cleanup).1 = none ∧
    ((q.Initialize dfg).1 = none ∨ (q.Initialize dfg).1 = some "plugin already initialized") ∧
    (q.Health = none ∨ q.Health = some "plugin not initialized") ∧
    (q.Cleanup).1 = none ∧
    (p.GetMetadata).1 = (SimplePlugin.SimpleTestPlugin.GetMetadata ⟨false⟩).1 ∧
    (q.GetMetadata).1 = (ClusterPlugin.TestClusterPlugin.GetMetadata ⟨false⟩).1 ∧
    (p.GetHandlers).map Prod.fst = ["HealthHandler", "InfoHandler"] ∧
    (q.GetHandlers).map Prod.fst
      = ["GetClusterStatusHandler", "OnboardClusterHandler", "DetachClusterHandler"] := by
  rcases p with ⟨pi⟩
  rcases q with ⟨qi⟩
  cases pi <;> cases qi <;>
    refine ⟨?_, ?_, rfl, ?_, ?_, rfl, rfl, rfl, rfl, rfl⟩ <;>
      first
        | exact Or.inl rfl
        | exact Or.inr rfl

/-- C9: a body whose `clusterName` is the empty string is rejected exactly
like a missing key: both handlers answer `400` with body
`{"error": "clusterName is required"}` and never reach the success path. -/
theorem empty_clusterName_rejected
    (p : ClusterPlugin.TestClusterPlugin)
    (req : List (String × JsonValue)) (n n5 n10 : String)
    (hv : lookupField req "clusterName" = some (.str "")) :
    p.OnboardClusterHandler ⟨.ok req, n, n5, n10⟩
      = { status := 400, body := [("error", .str "clusterName is required")] } ∧
    p.DetachClusterHandler ⟨.ok req, n, n5, n10⟩
      = { status := 400, body := [("error", .str "clusterName is required")] } := by
  unfold ClusterPlugin.TestClusterPlugin.OnboardClusterHandler
    ClusterPlugin.TestClusterPlugin.DetachClusterHandler
  simp [hv, JsonValue.isEmptyGoString]

/-- Witness for C9 at the body whose only key is an empty `clusterName`. -/
theorem empty_clusterName_rejected_witness :
    ClusterPlugin.TestClusterPlugin.OnboardClusterHandler ⟨false⟩
        ⟨.ok [("clusterName", .str "")], "t0", "t1", "t2"⟩
      = { status := 400, body := [("error", .str "clusterName is required")] } ∧
    ClusterPlugin.TestClusterPlugin.DetachClusterHandler ⟨false⟩
        ⟨.ok [("clusterName", .str "")], "t0", "t1", "t2"⟩
      = { status := 400, body := [("error", .str "clusterName is required")] } :=
  empty_clusterName_rejected ⟨false⟩ [("clusterName", .str "")] "t0" "t1" "t2" rfl

/-- C10: the second variant's factory initializes the instance before
returning it: `NewPlugin` yields an instance with `initialized = true`, on
which `Health` already succeeds and a first host-issued `Initialize` fails
with the already-initialized error (leaving the flag `true`). -/
theorem newPlugin_auto_initialized
    (cfg : Option (List (String × JsonValue))) :
    ∃ pl, ClusterPlugin.NewPlugin = some pl ∧
      pl.initialized = true ∧
      ClusterPlugin.TestClusterPlugin.Health pl = none ∧
      (pl.Initialize cfg).1 = some "plugin already initialized" ∧
      (pl.Initialize cfg).2.initialized = true :=
  ⟨⟨true⟩, rfl, rfl, rfl, rfl, rfl⟩
